import Mathlib

/-!
Shallow embedding of the SpotifyRecommender frontend (React client).

The embedded code is:
* the recommendation-list state slice of `App.jsx` (`recommendations`,
  `recentlyPlayedIds`, `replacingIds`, `addedToQueue`) together with its
  mutation handlers `handleGenerate` (success path), `handleReorder`,
  `handleReject` (split into its begin / complete / fail phases) and
  `handleAddToQueue` (success path);
* the `api` fetch wrapper of `api.js`;
* the `getSessionId` resolver and the login gate of `App.jsx`;
* the `handleDragEnd` handler of `RecommendationsList.jsx` with
  `arrayMove` from `@dnd-kit/sortable`.

JavaScript `Set` values (`replacingIds`) are modelled as duplicate-free
insertion-ordered lists: `new Set([...prev, x])` keeps the first
occurrence of each element, `delete` keeps the order of the rest.
-/

/-- A track as received from the server: `{id, name, artists, album_art}`.
The `is_playing` flag only occurs on the current song and plays no role in
the list controller. -/
structure Track where
  id : String
  name : String
  artists : List String
  albumArt : Option String
  deriving Repr, DecidableEq

/-- The recommendation-list state slice of the `App` component:
`recommendations`, `recentlyPlayedIds`, `replacingIds` (a JS `Set`,
modelled as a duplicate-free insertion-ordered list) and `addedToQueue`
(the Committed flag). -/
structure AppState where
  recommendations : List Track
  recentlyPlayedIds : List String
  replacingIds : List String
  addedToQueue : Bool
  deriving Repr, DecidableEq

/-- The initial state of the component:
`useState([])`, `useState([])`, `useState(new Set())`, `useState(false)`. -/
def initialState : AppState := ⟨[], [], [], false⟩

/-- `new Set([...prev, x])`: appends `x` unless it is already a member
(JS `Set` keeps the first occurrence). -/
def setInsert (l : List String) (x : String) : List String :=
  if x ∈ l then l else l ++ [x]

/-- The success path of `handleGenerate`: `setAddedToQueue(false)`,
`setRecommendations([])`, then on response `setRecommendations(data.recommendations)`
and `setRecentlyPlayedIds(data.recently_played_ids ?? [])`.
`replacingIds` is not touched. -/
def handleGenerateSuccess (s : AppState) (tracks : List Track)
    (recentlyPlayed : List String) : AppState :=
  { recommendations := tracks
    recentlyPlayedIds := recentlyPlayed
    replacingIds := s.replacingIds
    addedToQueue := false }

/-- `handleReorder` (App.jsx): `setRecommendations(newList)`;
`setAddedToQueue(false)`. There is no check on `newList`. -/
def handleReorder (s : AppState) (newList : List Track) : AppState :=
  { s with recommendations := newList, addedToQueue := false }

/-- The first phase of `handleReject`:
`setReplacingIds((prev) => new Set([...prev, trackId]))`. -/
def beginReject (s : AppState) (trackId : String) : AppState :=
  { s with replacingIds := setInsert s.replacingIds trackId }

/-- The success continuation of `handleReject`:
`setRecommendations((prev) => prev.map((r) => (r.id === trackId ? data.replacement : r)))`
followed by the `finally` block deleting `trackId` from `replacingIds`. -/
def completeReject (s : AppState) (trackId : String) (replacement : Track) :
    AppState :=
  { s with
    recommendations :=
      s.recommendations.map (fun r => if r.id = trackId then replacement else r)
    replacingIds := s.replacingIds.erase trackId }

/-- The failure continuation of `handleReject`: only the `finally` block
runs, deleting `trackId` from `replacingIds`; the list is untouched. -/
def failReject (s : AppState) (trackId : String) : AppState :=
  { s with replacingIds := s.replacingIds.erase trackId }

/-- The success path of `handleAddToQueue`: `setAddedToQueue(true)`. -/
def commitQueueSuccess (s : AppState) : AppState :=
  { s with addedToQueue := true }

/-- The identifiers of the current recommendation list, in order. -/
def listIds (s : AppState) : List String :=
  s.recommendations.map Track.id

/-- A transport-level fetch response as observed by the `api` wrapper:
`ok` and `status` from the `Response`, `bodyText` the result of
`res.text()` (`none` when reading the body itself fails, which the code
turns into the string `Unknown error` via `.catch`), and `json` the parsed
body of a successful response (the four endpoints speak JSON, §6 of the
spec fixes the wire shapes). -/
structure FetchResponse (α : Type) where
  ok : Bool
  status : Nat
  bodyText : Option String
  json : α
  deriving Repr, DecidableEq

/-- The `api` wrapper of `api.js`:
`if (!res.ok) { const text = await res.text().catch(() => 'Unknown error');
throw new Error(text || 'HTTP ' + res.status) } return res.json()`.
The thrown message is the body text when non-empty, `Unknown error` when
the body is unreadable, and `HTTP <status>` when the body text is empty
(the empty string is falsy in JavaScript). -/
def api {α : Type} (res : FetchResponse α) : Except String α :=
  if res.ok then
    Except.ok res.json
  else
    let text := res.bodyText.getD "Unknown error"
    Except.error (if text = "" then "HTTP " ++ toString res.status else text)

/-- The navigation-and-storage state read by `getSessionId`:
`urlSession` is the value of the `session` URL parameter (`none` when the
parameter is absent, `URLSearchParams.get` returns `null` then) and
`stored` is `sessionStorage.getItem('session_id')`. -/
structure NavState where
  urlSession : Option String
  stored : Option String
  deriving Repr, DecidableEq

/-- The outcome of `getSessionId`: the returned token plus the
navigation-and-storage state after the call (`replaceState({}, '', '/')`
clears the visible URL parameters). -/
structure NavResult where
  token : Option String
  stored : Option String
  urlSession : Option String
  deriving Repr, DecidableEq

/-- `getSessionId` (App.jsx): reads the `session` URL parameter; `if (id)`
(truthy: present and non-empty) persists it, cleans the URL and returns
it; otherwise returns `sessionStorage.getItem('session_id')` without
touching storage or the URL. -/
def getSessionId (s : NavState) : NavResult :=
  match s.urlSession with
  | some id =>
      if id ≠ "" then
        { token := some id, stored := some id, urlSession := none }
      else
        { token := s.stored, stored := s.stored, urlSession := s.urlSession }
  | none => { token := s.stored, stored := s.stored, urlSession := s.urlSession }

/-- What the `App` component renders at top level. -/
inductive RenderResult where
  | loginPage
  | mainApp
  deriving Repr, DecidableEq

/-- The login gate of `App`: `if (!sessionId) return <LoginPage />`
(falsy: `null` or the empty string). -/
def appRender (sessionId : Option String) : RenderResult :=
  match sessionId with
  | none => RenderResult.loginPage
  | some s => if s = "" then RenderResult.loginPage else RenderResult.mainApp

/-- Whether the mount effect of `App` issues the `getCurrentSong` network
call: `useEffect(() => { if (!sessionId) return; ... getCurrentSong(sessionId) ... })`. -/
def mountEffectFetches (sessionId : Option String) : Bool :=
  match sessionId with
  | none => false
  | some s => decide (s ≠ "")

/-- `arrayMove` from `@dnd-kit/sortable`, for an in-range source index
(the handler computes both indices with `findIndex` over ids that are
members of the list): remove the element at `i` and reinsert it at `j`. -/
def arrayMove (l : List Track) (i j : Nat) : List Track :=
  match l.get? i with
  | none => l
  | some x => (l.eraseIdx i).insertIdx j x

/-- `handleDragEnd` (RecommendationsList.jsx):
`if (active.id !== over?.id)` compute the two indices and call
`onReorder(arrayMove(songs, oldIndex, newIndex))` — `onReorder` is
`handleReorder`; otherwise nothing happens. A `null` drop target with a
differing id dereferences `over.id` and throws, modelled as `none`. -/
def handleDragEnd (s : AppState) (activeId : String) (overId : Option String) :
    Option AppState :=
  if some activeId ≠ overId then
    match overId with
    | none => none
    | some oid =>
        let oldIndex := s.recommendations.findIdx (fun r => r.id = activeId)
        let newIndex := s.recommendations.findIdx (fun r => r.id = oid)
        some (handleReorder s (arrayMove s.recommendations oldIndex newIndex))
  else
    some s

/-- One observable mutation of the recommendation-list state, with the
side conditions under which the uniqueness invariant is preserved:
`setList` arguments have pairwise-distinct identifiers, `reorder`
arguments are permutations of the current list, and a `completeReject`
replacement's identifier collides with no list member other than the one
being replaced. -/
inductive ControllerStep : AppState → AppState → Prop where
  | setList {s : AppState} (tracks : List Track) (recentlyPlayed : List String)
      (hids : (tracks.map Track.id).Nodup) :
      ControllerStep s (handleGenerateSuccess s tracks recentlyPlayed)
  | reorder {s : AppState} (newList : List Track)
      (hperm : newList.Perm s.recommendations) :
      ControllerStep s (handleReorder s newList)
  | beginRej {s : AppState} (trackId : String) :
      ControllerStep s (beginReject s trackId)
  | completeRej {s : AppState} (trackId : String) (replacement : Track)
      (hfresh : ∀ r ∈ s.recommendations, r.id = replacement.id → r.id = trackId) :
      ControllerStep s (completeReject s trackId replacement)
  | failRej {s : AppState} (trackId : String) :
      ControllerStep s (failReject s trackId)

/-- Reachability through any finite sequence of controller mutations. -/
def ControllerReachable : AppState → AppState → Prop :=
  Relation.ReflTransGen ControllerStep

/-- C1 (counterexample): with current list `[a]` and argument `[b]` the
identifier sets differ, yet `handleReorder` does not leave the
recommendation list unchanged — the claimed rejection does not happen. -/
theorem reorder_mismatch_not_rejected_cex :
    (handleReorder ⟨[⟨"a", "A", [], none⟩], [], [], false⟩
        [⟨"b", "B", [], none⟩]).recommendations
      ≠ [⟨"a", "A", [], none⟩] := by
  decide

/-- C1 (amended): `handleReorder` performs no identifier-set check and
never fails: for every prior state and every argument list it replaces
the recommendation list wholesale with the argument, clears the Committed
flag, and leaves the Replacing Set (and `recentlyPlayedIds`) unchanged. -/
theorem reorder_unconditional (s : AppState) (newList : List Track) :
    handleReorder s newList =
      { recommendations := newList
        recentlyPlayedIds := s.recentlyPlayedIds
        replacingIds := s.replacingIds
        addedToQueue := false } :=
  rfl

/-- C2 (counterexample): a successful generation does not clear the
Replacing Set — from a state whose Replacing Set holds `x`, the identifier
is still there afterwards. -/
theorem setList_keeps_replacingIds_cex :
    (handleGenerateSuccess ⟨[], [], ["x"], true⟩ [] []).replacingIds ≠ [] := by
  decide

/-- C2 (amended): for every prior state, the success path of generation
replaces the list wholesale, resets the Committed flag to false, and
never fails, but leaves the Replacing Set exactly as it was (pending
rejects are cleaned up by their own completion handlers instead). -/
theorem setList_spec (s : AppState) (tracks : List Track)
    (recentlyPlayed : List String) :
    handleGenerateSuccess s tracks recentlyPlayed =
      ⟨tracks, recentlyPlayed, s.replacingIds, false⟩ :=
  rfl

/-- C3 (counterexample): after a commit, a `completeReject` that replaces
an element changes the list contents yet leaves the Committed flag true. -/
theorem completeReject_keeps_committed_cex :
    ((completeReject (commitQueueSuccess ⟨[⟨"a", "A", [], none⟩], [], [], false⟩)
          "a" ⟨"b", "B", [], none⟩).recommendations
        ≠ [⟨"a", "A", [], none⟩])
    ∧ (completeReject (commitQueueSuccess ⟨[⟨"a", "A", [], none⟩], [], [], false⟩)
          "a" ⟨"b", "B", [], none⟩).addedToQueue = true := by
  constructor
  · decide
  · rfl

/-- C3 (amended): the Committed flag is false immediately after every
`handleReorder` and every successful generation — in particular after
commit-then-reorder — and `commitQueueSuccess` sets it; but
`completeReject` leaves the flag unchanged even when it replaces an
element, so a commit followed by a late replacement keeps the flag true. -/
theorem committed_flag_spec (s : AppState) (newList tracks : List Track)
    (recentlyPlayed : List String) (trackId : String) (replacement : Track) :
    (handleReorder s newList).addedToQueue = false
    ∧ (handleGenerateSuccess s tracks recentlyPlayed).addedToQueue = false
    ∧ (handleReorder (commitQueueSuccess s) newList).addedToQueue = false
    ∧ (commitQueueSuccess s).addedToQueue = true
    ∧ (completeReject s trackId replacement).addedToQueue = s.addedToQueue :=
  ⟨rfl, rfl, rfl, rfl, rfl⟩

/-- C6: `beginReject` is idempotent — applying it twice with the same
identifier yields exactly the same state as applying it once — and it
never alters the recommendation list's order or contents. -/
theorem beginReject_idempotent_frame (s : AppState) (trackId : String) :
    beginReject (beginReject s trackId) trackId = beginReject s trackId
    ∧ (beginReject s trackId).recommendations = s.recommendations := by
  constructor
  · unfold beginReject setInsert
    by_cases h : trackId ∈ s.replacingIds
    · simp [h]
    · simp [h]
  · rfl

/-- C10: when the drag-end event's drop target carries the same identifier
as the dragged item, `handleDragEnd` issues no reorder: the state —
recommendation list contents and order plus the Committed flag — is
returned unchanged. -/
theorem dragEnd_self_drop_noop (s : AppState) (activeId : String) :
    handleDragEnd s activeId (some activeId) = some s := by
  simp [handleDragEnd]

/-- C4: when the rejected identifier no longer occurs in the list, the
late replacement is discarded — `completeReject` leaves the list's
contents and order exactly unchanged. -/
theorem completeReject_absent_noop (s : AppState) (trackId : String)
    (replacement : Track) (h : trackId ∉ listIds s) :
    (completeReject s trackId replacement).recommendations
      = s.recommendations := by
  show s.recommendations.map (fun r => if r.id = trackId then replacement else r)
      = s.recommendations
  have hall : ∀ r ∈ s.recommendations,
      (if r.id = trackId then replacement else r) = id r := by
    intro r hr
    have : r.id ≠ trackId := fun he =>
      h (List.mem_map.mpr ⟨r, hr, he⟩)
    simp [this]
  exact (List.map_congr_left hall).trans (List.map_id _)

/-- C4 (witness): on the one-element list `[a]`, completing a reject for
the absent identifier `z` leaves the list unchanged. -/
theorem completeReject_absent_noop_witness :
    (completeReject ⟨[⟨"a", "A", [], none⟩], [], [], false⟩ "z"
        ⟨"b", "B", [], none⟩).recommendations
      = [⟨"a", "A", [], none⟩] :=
  completeReject_absent_noop ⟨[⟨"a", "A", [], none⟩], [], [], false⟩ "z"
    ⟨"b", "B", [], none⟩ (by decide)

/-- C5: when the rejected identifier occupies position `k` of a
duplicate-free list, `completeReject` keeps the length, puts the
replacement at position `k`, leaves every other position untouched, and
removes the identifier from the Replacing Set. -/
theorem completeReject_positional (s : AppState) (k : Nat) (t : Track)
    (trackId : String) (replacement : Track)
    (hk : s.recommendations[k]? = some t) (ht : t.id = trackId)
    (hnd : (listIds s).Nodup) :
    (completeReject s trackId replacement).recommendations.length
        = s.recommendations.length
    ∧ (completeReject s trackId replacement).recommendations[k]?
        = some replacement
    ∧ (∀ j, j ≠ k →
        (completeReject s trackId replacement).recommendations[j]?
          = s.recommendations[j]?)
    ∧ (completeReject s trackId replacement).replacingIds
        = s.replacingIds.erase trackId := by
  refine ⟨List.length_map _ _, ?_, ?_, rfl⟩
  · show (s.recommendations.map
        (fun r => if r.id = trackId then replacement else r))[k]? = some replacement
    rw [List.getElem?_map, hk]
    simp [ht]
  · intro j hj
    show (s.recommendations.map
        (fun r => if r.id = trackId then replacement else r))[j]?
      = s.recommendations[j]?
    rw [List.getElem?_map]
    cases hu : s.recommendations[j]? with
    | none => rfl
    | some u =>
        have hune : u.id ≠ trackId := by
          intro he
          have hkl : k < (listIds s).length := by
            have := List.getElem?_eq_some.mp hk
            simpa [listIds] using this.1
          have hids : (listIds s)[k]? = (listIds s)[j]? := by
            simp only [listIds, List.getElem?_map, hk, hu]
            simp [ht, he]
          exact hj (List.getElem?_inj hkl hnd hids).symm
        simp [hune]

/-- C5 (witness): in `[a, b, c]`, completing the reject of `b` with `d`
yields `d` at position 1 while position 0 is untouched, and removes `b`
from the Replacing Set. -/
theorem completeReject_positional_witness :
    (completeReject ⟨[⟨"a", "A", [], none⟩, ⟨"b", "B", [], none⟩,
        ⟨"c", "C", [], none⟩], [], ["b"], false⟩ "b"
        ⟨"d", "D", [], none⟩).recommendations[1]? = some ⟨"d", "D", [], none⟩ :=
  (completeReject_positional
    ⟨[⟨"a", "A", [], none⟩, ⟨"b", "B", [], none⟩, ⟨"c", "C", [], none⟩],
      [], ["b"], false⟩ 1 ⟨"b", "B", [], none⟩ "b" ⟨"d", "D", [], none⟩
    rfl rfl (by decide)).2.1

/-- C8: the `api` wrapper resolves every successful response to its parsed
JSON value without failing, and turns every non-success response into a
single error whose message is the server's body text when that text is
non-empty, the synthesized `HTTP <status>` when the body text is empty,
and the synthesized `Unknown error` when the body is unreadable; the
outcome depends on the one response only, no retry happens. -/
theorem api_contract {α : Type} (res : FetchResponse α) :
    (res.ok = true → api res = Except.ok res.json)
    ∧ (res.ok = false → ∃ msg, api res = Except.error msg ∧
        ((res.bodyText = some msg ∧ msg ≠ "")
          ∨ (res.bodyText = some "" ∧ msg = "HTTP " ++ toString res.status)
          ∨ (res.bodyText = none ∧ msg = "Unknown error"))) := by
  constructor
  · intro h
    simp [api, h]
  · intro h
    cases hb : res.bodyText with
    | none =>
        refine ⟨"Unknown error", ?_, Or.inr (Or.inr ⟨rfl, rfl⟩)⟩
        simp [api, h, hb]
    | some t =>
        by_cases hte : t = ""
        · subst hte
          refine ⟨"HTTP " ++ toString res.status, ?_, Or.inr (Or.inl ⟨rfl, rfl⟩)⟩
          simp [api, h, hb]
        · refine ⟨t, ?_, Or.inl ⟨rfl, hte⟩⟩
          simp [api, h, hb, hte]

/-- C8 (witness): a successful response with parsed body `42` resolves to
`42`, and a failed response with body text `session expired` fails with
exactly that message. -/
theorem api_contract_witness :
    api ⟨true, 200, some "", (42 : Nat)⟩ = Except.ok 42
    ∧ api ⟨false, 401, some "session expired", (0 : Nat)⟩
        = Except.error "session expired" :=
  ⟨(api_contract ⟨true, 200, some "", (42 : Nat)⟩).1 rfl, by
    obtain ⟨msg, hmsg, hcase⟩ :=
      (api_contract ⟨false, 401, some "session expired", (0 : Nat)⟩).2 rfl
    rcases hcase with ⟨hsome, -⟩ | ⟨hsome, -⟩ | ⟨hsome, -⟩ <;>
      first
        | exact absurd hsome (by decide)
        | (rw [hmsg]; injection hsome with h; rw [h])⟩

/-- C9 (counterexample): with the `session` URL parameter present but
empty (`?session=`) and a previously persisted token, the resolver does
not return the parameter's value and does not remove the parameter from
the visible location — the claimed present-parameter behaviour fails. -/
theorem empty_session_param_cex :
    (getSessionId ⟨some "", some "tok"⟩).token ≠ some ""
    ∧ (getSessionId ⟨some "", some "tok"⟩).urlSession = some "" := by
  decide

/-- C9 (amended): if a non-empty `session` parameter is in the URL, the
resolver returns it, persists it over any previously stored token, and
removes it from the visible location; if the parameter is absent or
empty, it returns the previously persisted token (or null) and leaves
storage and the visible location untouched; and whenever the resolved
token is null, the UI renders only the login page and the mount effect
issues no network call. -/
theorem session_resolver_contract (s : NavState) :
    (∀ id, s.urlSession = some id → id ≠ "" →
        getSessionId s = ⟨some id, some id, none⟩)
    ∧ ((s.urlSession = none ∨ s.urlSession = some "") →
        (getSessionId s).token = s.stored
        ∧ (getSessionId s).stored = s.stored
        ∧ (getSessionId s).urlSession = s.urlSession)
    ∧ ((getSessionId s).token = none →
        appRender (getSessionId s).token = RenderResult.loginPage
        ∧ mountEffectFetches (getSessionId s).token = false) := by
  refine ⟨?_, ?_, ?_⟩
  · intro id hurl hne
    simp [getSessionId, hurl, hne]
  · rintro (hurl | hurl) <;> simp [getSessionId, hurl]
  · intro h
    rw [h]
    exact ⟨rfl, rfl⟩

/-- C9 (witness): with `?session=abc` in the URL and `old` persisted, the
resolver returns `abc`, overwrites the persisted token with `abc`, and
clears the parameter from the location. -/
theorem session_resolver_contract_witness :
    getSessionId ⟨some "abc", some "old"⟩ = ⟨some "abc", some "abc", none⟩ :=
  (session_resolver_contract ⟨some "abc", some "old"⟩).1 "abc" rfl (by decide)

/-- Replacing the members that carry `trackId` keeps the identifier list
duplicate-free, provided the replacement's identifier collides with no
member other than those carrying `trackId`. -/
lemma nodup_ids_map_replace (L : List Track) (trackId : String) (R : Track)
    (hnd : (L.map Track.id).Nodup)
    (hfresh : ∀ r ∈ L, r.id = R.id → r.id = trackId) :
    ((L.map (fun r => if r.id = trackId then R else r)).map Track.id).Nodup := by
  induction L with
  | nil => simp
  | cons a t ih =>
      simp only [List.map_cons, List.nodup_cons, List.mem_map] at hnd ⊢
      obtain ⟨ha, htnd⟩ := hnd
      refine ⟨?_, ih htnd (fun r hr => hfresh r (List.mem_cons_of_mem a hr))⟩
      rintro ⟨x, ⟨b, hb, rfl⟩, hbx⟩
      by_cases hbid : b.id = trackId
      · rw [if_pos hbid] at hbx
        by_cases haid : a.id = trackId
        · rw [if_pos haid] at hbx
          exact ha ⟨b, hb, by rw [hbid, haid]⟩
        · rw [if_neg haid] at hbx
          exact haid (hfresh a (List.mem_cons_self a t) hbx.symm)
      · rw [if_neg hbid] at hbx
        by_cases haid : a.id = trackId
        · rw [if_pos haid] at hbx
          exact hbid (hfresh b (List.mem_cons_of_mem a hb) hbx)
        · rw [if_neg haid] at hbx
          exact ha ⟨b, hb, hbx⟩

/-- C7 (counterexample): starting from the empty initial state, the
operation sequence `setList [a, b]` (pairwise-distinct identifiers)
followed by `completeReject "a"` with a replacement whose identifier is
`b` — an answer the server may return, the code never checks it — ends in
a list whose identifiers are not pairwise distinct. -/
theorem duplicate_ids_producible_cex :
    ¬ (listIds (completeReject
        (handleGenerateSuccess initialState
          [⟨"a", "A", [], none⟩, ⟨"b", "B", [], none⟩] [])
        "a" ⟨"b", "D", [], none⟩)).Nodup := by
  decide

/-- C7 (amended): identifiers stay pairwise distinct in every state
reachable from a duplicate-free state through `setList` calls with
pairwise-distinct identifiers, `reorder` calls whose argument is a
permutation of the current list (the only caller, the drag handler,
passes one), `beginReject`, `failReject`, and `completeReject` calls
whose replacement's identifier collides with no other member; without the
last restriction — which the code does not enforce — the invariant fails. -/
theorem reachable_ids_nodup (s s' : AppState)
    (hreach : ControllerReachable s s') (hnd : (listIds s).Nodup) :
    (listIds s').Nodup := by
  induction hreach with
  | refl => exact hnd
  | tail hab hbc ih =>
      cases hbc with
      | setList tracks recentlyPlayed hids =>
          simpa [listIds, handleGenerateSuccess] using hids
      | reorder newList hperm =>
          exact ((hperm.map Track.id).nodup_iff).mpr ih
      | beginRej trackId => simpa [listIds, beginReject] using ih
      | completeRej trackId replacement hfresh =>
          exact nodup_ids_map_replace _ trackId replacement ih hfresh
      | failRej trackId => simpa [listIds, failReject] using ih

/-- C7 (witness): the state reached from the initial state by one
`setList` with the distinct-identifier list `[a, b]` has pairwise-distinct
identifiers. -/
theorem reachable_ids_nodup_witness :
    (listIds (handleGenerateSuccess initialState
      [⟨"a", "A", [], none⟩, ⟨"b", "B", [], none⟩] [])).Nodup :=
  reachable_ids_nodup initialState
    (handleGenerateSuccess initialState
      [⟨"a", "A", [], none⟩, ⟨"b", "B", [], none⟩] [])
    (Relation.ReflTransGen.single
      (ControllerStep.setList _ _ (by decide)))
    (by decide)
